import Mathlib

/-!
Verification of the orphan-finder reconciliation pipeline
(`cmd/orphan-finder/main.go`).

The Go program is shallowly embedded: pure helpers (`orphanTypeForCert`,
the two regular expressions, hex decoding, `strconv.ParseInt`) become Lean
functions; the remote collaborators (x509 parsing, storage authority,
OCSP generator) become a record of response functions (`Env`), and every
remote call and log emission is recorded in an event trace so that
"no remote call" style properties are statements about the trace.
Times are modelled as integer nanoseconds since the Unix epoch, matching
Go `time.Time.UnixNano` / `time.Duration`.
-/

/-- The `orphanType` enumeration from the source
(`unknownOrphan`, `certOrphan`, `precertOrphan`). -/
inductive OrphanType
  | unknownOrphan
  | certOrphan
  | precertOrphan
deriving DecidableEq, Repr

/-- The `String()` method of `orphanType`. -/
def OrphanType.string : OrphanType → String
  | .certOrphan => "certificate"
  | .precertOrphan => "precertificate"
  | .unknownOrphan => "unknown"

/-- Go `time.Time`, reduced to the data the program reads: integer
nanoseconds since the Unix epoch. -/
structure GoTime where
  ns : Int
deriving DecidableEq, Repr

/-- Go `time.Time.Add`: add a `time.Duration` (in nanoseconds). -/
def GoTime.add (t : GoTime) (d : Int) : GoTime := ⟨t.ns + d⟩

/-- Go `time.Time.UnixNano`. -/
def GoTime.unixNano (t : GoTime) : Int := t.ns

/-- One entry of `x509.Certificate.Extensions`: the program only reads the
OID (`ext.Id`), modelled as its list of arcs. -/
structure Extension where
  id : List Nat
deriving DecidableEq, Repr

/-- The fields of `x509.Certificate` that the program reads. -/
structure X509Cert where
  serialNumber : Int
  notBefore : GoTime
  extensions : List Extension
deriving DecidableEq, Repr

/-- The RFC 6962 CT poison extension OID `1.3.6.1.4.1.11129.2.4.3`. -/
def poisonOID : List Nat := [1, 3, 6, 1, 4, 1, 11129, 2, 4, 3]

/-- `orphanTypeForCert`: `precertOrphan` if the certificate carries the CT
poison extension, `certOrphan` otherwise, `unknownOrphan` for a nil
certificate (modelled as `none`). -/
def orphanTypeForCert : Option X509Cert → OrphanType
  | none => .unknownOrphan
  | some cert =>
    if cert.extensions.any (fun ext => ext.id = poisonOID) then .precertOrphan
    else .certOrphan

/-- Modelled from the spec: `core.SerialToString` lives outside the given
source tree; per the spec it is the canonical string encoding of a
certificate serial number used as the storage lookup key (the same
conversion on both the issuing and the recovery side, hence any injective
encoding is faithful for this development). Serials are non-negative. -/
def serialToString (n : Int) : String := String.mk (Nat.toDigits 10 n.toNat)

/- ## String scanning: `strings.Contains` and the two regular expressions -/

/-- Whether `m` is a prefix of `l` (on character lists). -/
def startsWith : List Char → List Char → Bool
  | [], _ => true
  | _ :: _, [] => false
  | m :: ms, c :: cs => m = c && startsWith ms cs

/-- Whether `sub` occurs as a contiguous substring of `l`
(Go `strings.Contains`). -/
def containsSub (sub : List Char) : List Char → Bool
  | [] => sub.isEmpty
  | c :: rest => startsWith sub (c :: rest) || containsSub sub rest

/-- Go `strings.Contains` on strings. -/
def containsSubstr (s sub : String) : Bool := containsSub sub.toList s.toList

/-- The character class `[0-9a-f]` of the `derOrphan` regular expression. -/
def isLowerHexDigit (c : Char) : Bool :=
  (decide ('0' ≤ c) && decide (c ≤ '9')) || (decide ('a' ≤ c) && decide (c ≤ 'f'))

/-- The character class `\d` (`[0-9]`) of the `regOrphan` regular
expression. -/
def isDigitChar (c : Char) : Bool := decide ('0' ≤ c) && decide (c ≤ '9')

/-- Leftmost match of a pattern `marker ( pred+ ) ']'`, returning the
captured group. At a position where `marker` matches, the only possible
continuation is the maximal run of `pred` characters followed by a
literal `]` (a shorter run would have to be followed by a `pred`
character, which `]` is not), so Go regexp semantics for
`marker\[(class+)\]` coincide with this scan. -/
def scanBracket (marker : List Char) (pred : Char → Bool) : List Char → Option (List Char)
  | [] => none
  | c :: rest =>
    if startsWith marker (c :: rest) then
      let after := (c :: rest).drop marker.length
      let run := after.takeWhile pred
      if !run.isEmpty && (after.drop run.length).head? = some ']' then some run
      else scanBracket marker pred rest
    else scanBracket marker pred rest

/-- The literal head of `derOrphan`, the characters of the marker up to and
including the opening bracket. -/
def derMarker : List Char := 'c' :: 'e' :: 'r' :: 't' :: '=' :: '[' :: []

/-- The literal head of `regOrphan`. -/
def regMarker : List Char := 'r' :: 'e' :: 'g' :: 'I' :: 'D' :: '=' :: '[' :: []

/-- `derOrphan.FindStringSubmatch`: the group captured by the regular
expression with shape cert, equals sign, bracketed run of `[0-9a-f]+`. -/
def findDerMatch (l : List Char) : Option (List Char) :=
  scanBracket derMarker isLowerHexDigit l

/-- `regOrphan.FindStringSubmatch`: the group captured by the regular
expression with shape regID, equals sign, bracketed run of `\d+`. -/
def findRegMatch (l : List Char) : Option (List Char) :=
  scanBracket regMarker isDigitChar l

/- ## `encoding/hex` and `strconv.ParseInt` -/

/-- Value of one hexadecimal character, upper or lower case, as accepted by
Go `encoding/hex`. -/
def hexCharVal (c : Char) : Option Nat :=
  if decide ('0' ≤ c) && decide (c ≤ '9') then some (c.toNat - '0'.toNat)
  else if decide ('a' ≤ c) && decide (c ≤ 'f') then some (c.toNat - 'a'.toNat + 10)
  else if decide ('A' ≤ c) && decide (c ≤ 'F') then some (c.toNat - 'A'.toNat + 10)
  else none

/-- Go `hex.DecodeString`: fails on a character outside the hex alphabet or
on an odd-length input, otherwise produces one byte per character pair. -/
def hexDecode : List Char → Option (List Nat)
  | [] => some []
  | _ :: [] => none
  | c1 :: c2 :: rest =>
    match hexCharVal c1, hexCharVal c2, hexDecode rest with
    | some h, some lo, some bs => some ((h * 16 + lo) :: bs)
    | _, _, _ => none

/-- Digits-to-number accumulator. -/
def natOfDigits (l : List Char) : Nat :=
  l.foldl (fun acc c => acc * 10 + (c.toNat - '0'.toNat)) 0

/-- Go `strconv.ParseInt(s, 10, 64)` restricted to the unsigned inputs the
`\d+` capture can produce: all-digit, non-empty, and the value must fit in
a signed 64-bit integer or the parse fails with a range error. -/
def parseInt64 (l : List Char) : Option Int :=
  if l.isEmpty then none
  else if l.all isDigitChar then
    if natOfDigits l ≤ 2 ^ 63 - 1 then some (Int.ofNat (natOfDigits l)) else none
  else none

/- ## The remote collaborators and the event trace -/

/-- Result of a storage lookup (`GetCertificate` / `GetPrecertificate`):
a nil error means the record exists, `notFound` is an error satisfying
`berrors.Is(err, berrors.NotFound)`, and `failed` is any other error. -/
inductive LookupResult
  | found
  | notFound
  | failed (msg : String)
deriving DecidableEq, Repr

/-- An error returned by one of the two insert operations. `duplicate`
stands for a storage uniqueness-constraint violation (a
`berrors.Duplicate`-typed error); `other` is any other insert error. -/
inductive InsertErr
  | duplicate
  | other (msg : String)
deriving DecidableEq, Repr

/-- The `sapb.AddCertificateRequest` fields populated by the program. -/
structure AddCertificateRequest where
  der : List Nat
  regID : Int
  ocsp : List Nat
  issued : Int
deriving DecidableEq, Repr

/-- Severity of a log emission: `Infof`, `Errf`, or `AuditErrf`. -/
inductive LogLevel
  | info
  | err
  | auditErr
deriving DecidableEq, Repr

/-- Observable events of one run: each remote call with its arguments, and
each log emission with its level and static format string. -/
inductive Event
  | getCertificate (serial : String)
  | getPrecertificate (serial : String)
  | generateOCSP (der : List Nat)
  | addCertificate (der : List Nat) (regID : Int) (ocsp : List Nat) (issued : GoTime)
  | addPrecertificate (req : AddCertificateRequest)
  | log (lvl : LogLevel) (msg : String)
deriving DecidableEq, Repr

/-- Whether an event is a remote call (anything but a log emission). -/
def Event.isRemote : Event → Bool
  | .log _ _ => false
  | _ => true

/-- Whether an event is an existence lookup. -/
def Event.isLookup : Event → Bool
  | .getCertificate _ => true
  | .getPrecertificate _ => true
  | _ => false

/-- Whether an event is an OCSP generation request. -/
def Event.isOCSP : Event → Bool
  | .generateOCSP _ => true
  | _ => false

/-- Whether an event is an insert (either kind). -/
def Event.isInsert : Event → Bool
  | .addCertificate _ _ _ _ => true
  | .addPrecertificate _ => true
  | _ => false

/-- Whether an event is a precertificate insert. -/
def Event.isPrecertInsert : Event → Bool
  | .addPrecertificate _ => true
  | _ => false

/-- The external collaborators of one run: the x509 parser and the
responses of the storage authority and the OCSP generator. Each function
gives the response the remote side would return for those arguments. -/
structure Env where
  parseCert : List Nat → Except String X509Cert
  getCertificate : String → LookupResult
  getPrecertificate : String → LookupResult
  generateOCSP : List Nat → Except String (List Nat)
  addCertificate : List Nat → Int → List Nat → GoTime → Option InsertErr
  addPrecertificate : AddCertificateRequest → Option InsertErr

/-- The existence lookup dispatched on the orphan type, as in the `switch`
of `checkDER`; the `default` branch makes no call and manufactures a
non-`NotFound` error (the string `unknown orphan type`). -/
def lookupFor (env : Env) : OrphanType → String → LookupResult
  | .certOrphan, serial => env.getCertificate serial
  | .precertOrphan, serial => env.getPrecertificate serial
  | .unknownOrphan, _ => .failed "unknown orphan type"

/-- The lookup events emitted by `checkDER`, one per actual remote call
(none in the `default` branch). -/
def lookupEvents : OrphanType → String → List Event
  | .certOrphan, serial => [.getCertificate serial]
  | .precertOrphan, serial => [.getPrecertificate serial]
  | .unknownOrphan, _ => []

/-- Outcome of `checkDER`: a DER parse failure, the `errAlreadyExists`
sentinel, a wrapped lookup failure, or the parsed certificate with its
orphan type when the lookup reported not-found. -/
inductive CheckResult
  | parseError (msg : String)
  | alreadyExists (typ : OrphanType)
  | lookupFailed (typ : OrphanType)
  | ok (cert : X509Cert) (typ : OrphanType)
deriving DecidableEq, Repr

/-- `checkDER`: parse the DER, classify, and look the serial up in the
type-appropriate store. -/
def checkDER (env : Env) (der : List Nat) : CheckResult × List Event :=
  match env.parseCert der with
  | .error e => (.parseError e, [])
  | .ok orphan =>
    match lookupFor env (orphanTypeForCert (some orphan)) (serialToString orphan.serialNumber) with
    | .found =>
      (.alreadyExists (orphanTypeForCert (some orphan)),
       lookupEvents (orphanTypeForCert (some orphan)) (serialToString orphan.serialNumber))
    | .notFound =>
      (.ok orphan (orphanTypeForCert (some orphan)),
       lookupEvents (orphanTypeForCert (some orphan)) (serialToString orphan.serialNumber))
    | .failed _ =>
      (.lookupFailed (orphanTypeForCert (some orphan)),
       lookupEvents (orphanTypeForCert (some orphan)) (serialToString orphan.serialNumber))

/- ## `storeParsedLogLine` -/

/-- The orphaning label for final certificates, built as in the source from
the type display string. -/
def labelCert : String := "orphaning " ++ OrphanType.string .certOrphan

/-- The orphaning label for precertificates. -/
def labelPrecert : String := "orphaning " ++ OrphanType.string .precertOrphan

/-- The substring whose presence is required before attempting DER
extraction. -/
def markerCertEq : String := "cert="

/-- Whether the line carries one of the two orphaning labels. -/
def hasOrphanLabel (line : String) : Bool :=
  containsSubstr line labelCert || containsSubstr line labelPrecert

/-- Format string of the audit log when the DER regular expression fails. -/
def msgNoDerRegex : String := "Didnt match regex for cert"

/-- Format string of the audit log when hex decoding fails. -/
def msgBadHex : String := "Couldnt decode hex"

/-- Format string used for every `checkDER` error (informational for the
already-exists sentinel, error level otherwise). -/
def msgCheckFmt : String := "errmsg and line"

/-- Format string of the audit log when the regID regular expression
fails. -/
def msgNoRegID : String := "regID variable is empty"

/-- Format string of the audit log when the regID does not parse. -/
def msgBadRegID : String := "Couldnt parse regID"

/-- Format string of the audit log when OCSP generation fails. -/
def msgOCSPFail : String := "Couldnt generate OCSP"

/-- Format string of the audit log when the insert fails. -/
def msgStoreFail : String := "Failed to store certificate"

/-- `storeParsedLogLine`: scan one log line, classify and check the DER,
extract the registration id, regenerate OCSP, backdate, and insert.
Returns `(found, added, typ)` and the trace of remote calls and log
emissions, in order. -/
def storeParsedLogLine (env : Env) (backdate : Int) (line : String) :
    (Bool × Bool × OrphanType) × List Event :=
  if !hasOrphanLabel line then ((false, false, .unknownOrphan), [])
  else if !containsSubstr line markerCertEq then ((false, false, .unknownOrphan), [])
  else
    match findDerMatch line.toList with
    | none => ((true, false, .unknownOrphan), [.log .auditErr msgNoDerRegex])
    | some derStr =>
      match hexDecode derStr with
      | none => ((true, false, .unknownOrphan), [.log .auditErr msgBadHex])
      | some der =>
        match checkDER env der with
        | (.parseError _, evs) => ((true, false, .unknownOrphan), evs ++ [.log .err msgCheckFmt])
        | (.alreadyExists typ, evs) => ((true, false, typ), evs ++ [.log .info msgCheckFmt])
        | (.lookupFailed typ, evs) => ((true, false, typ), evs ++ [.log .err msgCheckFmt])
        | (.ok cert typ, evs) =>
          match findRegMatch line.toList with
          | none => ((true, false, typ), evs ++ [.log .auditErr msgNoRegID])
          | some regStr =>
            match parseInt64 regStr with
            | none => ((true, false, typ), evs ++ [.log .auditErr msgBadRegID])
            | some regID =>
              match env.generateOCSP der with
              | .error _ =>
                ((true, false, typ), evs ++ [.generateOCSP der, .log .auditErr msgOCSPFail])
              | .ok response =>
                match typ with
                | .certOrphan =>
                  match env.addCertificate der regID response (cert.notBefore.add backdate) with
                  | some _ =>
                    ((true, false, typ),
                     evs ++ [.generateOCSP der,
                             .addCertificate der regID response (cert.notBefore.add backdate),
                             .log .auditErr msgStoreFail])
                  | none =>
                    ((true, true, typ),
                     evs ++ [.generateOCSP der,
                             .addCertificate der regID response (cert.notBefore.add backdate)])
                | .precertOrphan =>
                  match env.addPrecertificate
                      ⟨der, regID, response, (cert.notBefore.add backdate).unixNano⟩ with
                  | some _ =>
                    ((true, false, typ),
                     evs ++ [.generateOCSP der,
                             .addPrecertificate
                               ⟨der, regID, response, (cert.notBefore.add backdate).unixNano⟩,
                             .log .auditErr msgStoreFail])
                  | none =>
                    ((true, true, typ),
                     evs ++ [.generateOCSP der,
                             .addPrecertificate
                               ⟨der, regID, response, (cert.notBefore.add backdate).unixNano⟩])
                | .unknownOrphan =>
                  ((true, false, typ),
                   evs ++ [.generateOCSP der, .log .auditErr msgStoreFail])

/- ## The two driver modes -/

/-- The four summary counters of batch-log mode. -/
structure Counters where
  certFound : Int
  certAdded : Int
  precertFound : Int
  precertAdded : Int
deriving DecidableEq, Repr

/-- The all-zero initial counters. -/
def Counters.zero : Counters := ⟨0, 0, 0, 0⟩

/-- Format string of the driver error log for an unknown orphan type. -/
def msgFoundType : String := "Found orphan type"

/-- One iteration of the `parse-ca-log` loop: skip empty lines, process the
line, and update the counter pair selected by the orphan type (no counter
for an unknown type, only an error log). -/
def batchStep (env : Env) (backdate : Int) (acc : Counters × List Event) (line : String) :
    Counters × List Event :=
  if line = "" then acc
  else
    match storeParsedLogLine env backdate line with
    | ((found, added, typ), evs) =>
      match typ with
      | .certOrphan =>
        (⟨acc.1.certFound + (if found then 1 else 0),
          acc.1.certAdded + (if found && added then 1 else 0),
          acc.1.precertFound, acc.1.precertAdded⟩, acc.2 ++ evs)
      | .precertOrphan =>
        (⟨acc.1.certFound, acc.1.certAdded,
          acc.1.precertFound + (if found then 1 else 0),
          acc.1.precertAdded + (if found && added then 1 else 0)⟩, acc.2 ++ evs)
      | .unknownOrphan => (acc.1, acc.2 ++ evs ++ [.log .err msgFoundType])

/-- The `parse-ca-log` subcommand body: fold the loop over the lines of the
log file. -/
def runBatch (env : Env) (backdate : Int) (lines : List String) : Counters × List Event :=
  lines.foldl (batchStep env backdate) (Counters.zero, [])

/-- `cmd.FailOnError` context string of the `parse-der` existence check. -/
def msgPreAddFail : String := "Pre-AddCertificate checks failed"

/-- `cmd.FailOnError` context string of `parse-der` OCSP generation. -/
def msgGenOCSPFail : String := "Generating OCSP"

/-- `cmd.FailOnError` context string of the `parse-der` insert. -/
def msgAddFail : String := "Failed to add certificate to database"

/-- The `parse-der` subcommand body after flag validation: check the DER,
backdate, regenerate OCSP, insert. Every error aborts the whole process
(`cmd.FailOnError`), modelled as an `Except.error` carrying the
`FailOnError` context string. -/
def parseDERMode (env : Env) (backdate : Int) (der : List Nat) (regID : Int) :
    Except String Unit × List Event :=
  match checkDER env der with
  | (.ok cert typ, evs) =>
    match env.generateOCSP der with
    | .error _ => (.error msgGenOCSPFail, evs ++ [.generateOCSP der])
    | .ok response =>
      match typ with
      | .certOrphan =>
        match env.addCertificate der regID response (cert.notBefore.add (1 * backdate)) with
        | some _ =>
          (.error msgAddFail,
           evs ++ [.generateOCSP der,
                   .addCertificate der regID response (cert.notBefore.add (1 * backdate))])
        | none =>
          (.ok (),
           evs ++ [.generateOCSP der,
                   .addCertificate der regID response (cert.notBefore.add (1 * backdate))])
      | .precertOrphan =>
        match env.addPrecertificate
            ⟨der, regID, response, (cert.notBefore.add (1 * backdate)).unixNano⟩ with
        | some _ =>
          (.error msgAddFail,
           evs ++ [.generateOCSP der,
                   .addPrecertificate
                     ⟨der, regID, response, (cert.notBefore.add (1 * backdate)).unixNano⟩])
        | none =>
          (.ok (),
           evs ++ [.generateOCSP der,
                   .addPrecertificate
                     ⟨der, regID, response, (cert.notBefore.add (1 * backdate)).unixNano⟩])
      | .unknownOrphan => (.error msgAddFail, evs ++ [.generateOCSP der])
  | (_, evs) => (.error msgPreAddFail, evs)

/- ## Concrete fixtures used by witnesses and counterexamples -/

/-- Nanoseconds of `2020-01-01T00:00:00Z` (Unix second 1577836800). -/
def nbJan2020 : GoTime := ⟨1577836800000000000⟩

/-- One hour as a Go duration in nanoseconds. -/
def hourNs : Int := 3600000000000

/-- A concrete final certificate (no poison extension), serial 5, with
`NotBefore` at the start of 2020. -/
def testCert : X509Cert := ⟨5, nbJan2020, []⟩

/-- A concrete precertificate (poison extension present), serial 7. -/
def testPrecert : X509Cert := ⟨7, nbJan2020, [⟨poisonOID⟩]⟩

/-- Parse function of the test environments: byte string `0a` is
`testCert`, byte string `0b` is `testPrecert`, anything else fails. -/
def testParse : List Nat → Except String X509Cert :=
  fun der =>
    if der = [10] then .ok testCert
    else if der = [11] then .ok testPrecert
    else .error "bad der"

/-- Environment whose lookups report not-found and whose remote operations
succeed. -/
def envNotFound : Env :=
  ⟨testParse, fun _ => .notFound, fun _ => .notFound, fun _ => .ok [1],
   fun _ _ _ _ => none, fun _ => none⟩

/-- Environment whose lookups report that the record exists. -/
def envFound : Env :=
  ⟨testParse, fun _ => .found, fun _ => .found, fun _ => .ok [1],
   fun _ _ _ _ => none, fun _ => none⟩

/-- Environment whose lookups report not-found but whose inserts fail with
a uniqueness-constraint violation. -/
def envDupInsert : Env :=
  ⟨testParse, fun _ => .notFound, fun _ => .notFound, fun _ => .ok [1],
   fun _ _ _ _ => some .duplicate, fun _ => some .duplicate⟩

/-- A log line orphaning the test final certificate. -/
def lineCert : String := "orphaning certificate cert=[0a] regID=[42]"

/-- A log line orphaning the test precertificate. -/
def linePrecert : String := "orphaning precertificate cert=[0b] regID=[42]"

/-- A labelled line with a valid DER payload but no registration id. -/
def lineNoReg : String := "orphaning certificate cert=[0a]"

/-- A labelled line whose bracketed payload contains uppercase hex. -/
def lineUpperHex : String := "orphaning certificate cert=[DEADBEEF] regID=[7]"

example : findDerMatch lineCert.toList = some ['0', 'a'] := by decide
example : hexDecode ['0', 'a'] = some [10] := by decide
example : findRegMatch lineCert.toList = some ['4', '2'] := by decide
example : findDerMatch lineUpperHex.toList = none := by decide
example : hasOrphanLabel lineCert = true := by decide
example :
    storeParsedLogLine envNotFound hourNs lineCert =
      ((true, true, .certOrphan),
       [.getCertificate (serialToString 5), .generateOCSP [10],
        .addCertificate [10] 42 [1] ⟨1577840400000000000⟩]) := by decide

/- ## Helper lemmas -/

/-- Whether an event is an informational log emission. -/
def Event.isInfoLog : Event → Bool
  | .log .info _ => true
  | _ => false

/-- A successfully parsed (non-nil) certificate never classifies as the
unknown orphan type. -/
theorem orphanTypeForCert_some_ne_unknown (c : X509Cert) :
    orphanTypeForCert (some c) ≠ .unknownOrphan := by
  intro hEq
  simp only [orphanTypeForCert] at hEq
  split at hEq <;> exact OrphanType.noConfusion hEq

/-- Once a line carries an orphaning label and the DER marker, every
control path of `storeParsedLogLine` reports a match. -/
theorem spll_found_of_label_marker (env : Env) (bd : Int) (line : String)
    (hL : hasOrphanLabel line = true) (hM : containsSubstr line markerCertEq = true) :
    (storeParsedLogLine env bd line).1.1 = true := by
  unfold storeParsedLogLine
  rw [hL, hM]
  simp only [Bool.not_true, Bool.false_eq_true, if_false]
  repeat' split
  all_goals rfl

/-- A line lacking both labels or lacking the marker is rejected with no
events at all. -/
theorem spll_no_match (env : Env) (bd : Int) (line : String)
    (h : (containsSubstr line labelCert = false ∧ containsSubstr line labelPrecert = false)
        ∨ containsSubstr line markerCertEq = false) :
    storeParsedLogLine env bd line = ((false, false, .unknownOrphan), []) := by
  unfold storeParsedLogLine
  by_cases hL : hasOrphanLabel line = true
  · rcases h with ⟨hA, hB⟩ | hM
    · exfalso
      unfold hasOrphanLabel at hL
      rw [hA, hB] at hL
      simp at hL
    · rw [hL, hM]
      simp
  · simp only [Bool.not_eq_true] at hL
    rw [hL]
    simp

/-- Characterization of the already-exists path of `storeParsedLogLine`:
the existence check reports the record and the line resolves as
`found, not added` with one informational log. -/
theorem spll_already (env : Env) (bd : Int) (line : String) (c : X509Cert)
    (ds : List Char) (der : List Nat)
    (hL : hasOrphanLabel line = true)
    (hM : containsSubstr line markerCertEq = true)
    (hD : findDerMatch line.toList = some ds)
    (hX : hexDecode ds = some der)
    (hP : env.parseCert der = Except.ok c)
    (hF : lookupFor env (orphanTypeForCert (some c)) (serialToString c.serialNumber) =
            .found) :
    storeParsedLogLine env bd line =
      ((true, false, orphanTypeForCert (some c)),
       lookupEvents (orphanTypeForCert (some c)) (serialToString c.serialNumber)
         ++ [Event.log .info msgCheckFmt]) := by
  unfold storeParsedLogLine checkDER
  rw [hL, hM]
  simp only [Bool.not_true, Bool.false_eq_true, if_false, hD, hX, hP, hF]

/-- Characterization of the `parse-der` subcommand when the existence
check reports the record: the process aborts. -/
theorem parseDER_already (env : Env) (bd : Int) (der : List Nat) (regID : Int)
    (c : X509Cert)
    (hP : env.parseCert der = Except.ok c)
    (hF : lookupFor env (orphanTypeForCert (some c)) (serialToString c.serialNumber) =
            .found) :
    parseDERMode env bd der regID =
      (.error msgPreAddFail,
       lookupEvents (orphanTypeForCert (some c)) (serialToString c.serialNumber)) := by
  unfold parseDERMode checkDER
  simp only [hP, hF]

/- ## Claim C6 -/

/-- Claim C6: `storeParsedLogLine` reports no match exactly when the line
lacks both orphaning labels or lacks the `cert=` marker, and a rejected
line produces no events (no diagnostic, no remote call) and no further
processing. -/
theorem C6_scanner_no_match (env : Env) (bd : Int) (line : String) :
    ((storeParsedLogLine env bd line).1.1 = false ↔
      ((containsSubstr line labelCert = false ∧ containsSubstr line labelPrecert = false)
        ∨ containsSubstr line markerCertEq = false))
    ∧ (((containsSubstr line labelCert = false ∧ containsSubstr line labelPrecert = false)
        ∨ containsSubstr line markerCertEq = false) →
        storeParsedLogLine env bd line = ((false, false, .unknownOrphan), [])) := by
  constructor
  · constructor
    · intro h
      by_cases hA : containsSubstr line labelCert = true
      · by_cases hM : containsSubstr line markerCertEq = true
        · exfalso
          have hL : hasOrphanLabel line = true := by
            unfold hasOrphanLabel
            rw [hA]
            rfl
          rw [spll_found_of_label_marker env bd line hL hM] at h
          exact Bool.true_eq_false.mp h
        · exact Or.inr (Bool.not_eq_true _ |>.mp hM)
      · by_cases hB : containsSubstr line labelPrecert = true
        · by_cases hM : containsSubstr line markerCertEq = true
          · exfalso
            have hL : hasOrphanLabel line = true := by
              unfold hasOrphanLabel
              rw [hB]
              simp
            rw [spll_found_of_label_marker env bd line hL hM] at h
            exact Bool.true_eq_false.mp h
          · exact Or.inr (Bool.not_eq_true _ |>.mp hM)
        · exact Or.inl ⟨Bool.not_eq_true _ |>.mp hA, Bool.not_eq_true _ |>.mp hB⟩
    · intro h
      rw [spll_no_match env bd line h]
  · intro h
    exact spll_no_match env bd line h

/-- Witness for C6 at a line with no orphaning content. -/
theorem C6_witness :
    (storeParsedLogLine envNotFound hourNs "hello").1.1 = false
    ∧ storeParsedLogLine envNotFound hourNs "hello" = ((false, false, .unknownOrphan), []) := by
  have h := C6_scanner_no_match envNotFound hourNs "hello"
  refine ⟨(h.1).mpr ?_, h.2 ?_⟩
  · exact Or.inr (by decide)
  · exact Or.inr (by decide)

/- ## Claim C4 -/

/-- Claim C4: a matched log-mode candidate whose existence check reports
the serial as already present resolves as `found, not added`, logs
informationally, and performs neither an OCSP request nor an insert: the
trace holds exactly the one lookup and the informational log. -/
theorem C4_already_exists (env : Env) (bd : Int) (line : String) (c : X509Cert)
    (ds : List Char) (der : List Nat)
    (hL : hasOrphanLabel line = true)
    (hM : containsSubstr line markerCertEq = true)
    (hD : findDerMatch line.toList = some ds)
    (hX : hexDecode ds = some der)
    (hP : env.parseCert der = Except.ok c)
    (hF : lookupFor env (orphanTypeForCert (some c)) (serialToString c.serialNumber) =
            .found) :
    storeParsedLogLine env bd line =
      ((true, false, orphanTypeForCert (some c)),
       lookupEvents (orphanTypeForCert (some c)) (serialToString c.serialNumber)
         ++ [Event.log .info msgCheckFmt])
    ∧ (storeParsedLogLine env bd line).2.all
        (fun e => !(e.isOCSP || e.isInsert)) = true := by
  have h := spll_already env bd line c ds der hL hM hD hX hP hF
  refine ⟨h, ?_⟩
  rw [h]
  cases hTyp : orphanTypeForCert (some c) <;> rfl

/-- Witness for C4: re-processing a candidate that storage reports as
existing yields `found, not added`, one lookup, one informational log. -/
theorem C4_witness :
    storeParsedLogLine envFound hourNs lineCert =
      ((true, false, .certOrphan),
       [Event.getCertificate (serialToString 5), Event.log .info msgCheckFmt]) := by
  have h := C4_already_exists envFound hourNs lineCert testCert ['0', 'a'] [10]
    (by decide) (by decide) (by decide) (by decide) rfl rfl
  exact h.1

/- ## Claim C8 (corrected) -/

/-- Counterexample to claim C8 as stated: in single-file mode the
already-exists outcome aborts the whole process (the `parse-der` run ends
in the fatal `Pre-AddCertificate checks failed` state, not a success). -/
theorem C8_counterexample :
    parseDERMode envFound hourNs [10] 42 =
      (.error msgPreAddFail, [Event.getCertificate (serialToString 5)])
    ∧ (parseDERMode envFound hourNs [10] 42).1 ≠ .ok () := by
  refine ⟨rfl, ?_⟩
  intro h
  exact Except.noConfusion h

/-- Claim C8 (amended): in batch-log mode the already-exists outcome is a
non-error handled informationally with `found=true, added=false`; in
single-file mode the same outcome aborts the process with the fatal
pre-add diagnostic. -/
theorem C8_already_modes :
    (∀ (env : Env) (bd : Int) (line : String) (c : X509Cert) (ds : List Char)
        (der : List Nat),
      hasOrphanLabel line = true →
      containsSubstr line markerCertEq = true →
      findDerMatch line.toList = some ds →
      hexDecode ds = some der →
      env.parseCert der = Except.ok c →
      lookupFor env (orphanTypeForCert (some c)) (serialToString c.serialNumber) = .found →
      storeParsedLogLine env bd line =
        ((true, false, orphanTypeForCert (some c)),
         lookupEvents (orphanTypeForCert (some c)) (serialToString c.serialNumber)
           ++ [Event.log .info msgCheckFmt]))
    ∧ (∀ (env : Env) (bd : Int) (der : List Nat) (regID : Int) (c : X509Cert),
      env.parseCert der = Except.ok c →
      lookupFor env (orphanTypeForCert (some c)) (serialToString c.serialNumber) = .found →
      parseDERMode env bd der regID =
        (.error msgPreAddFail,
         lookupEvents (orphanTypeForCert (some c)) (serialToString c.serialNumber))) := by
  constructor
  · intro env bd line c ds der hL hM hD hX hP hF
    exact spll_already env bd line c ds der hL hM hD hX hP hF
  · intro env bd der regID c hP hF
    exact parseDER_already env bd der regID c hP hF

/-- Witness for C8: both conjuncts at the concrete already-exists
environment. -/
theorem C8_witness :
    storeParsedLogLine envFound hourNs linePrecert =
      ((true, false, .precertOrphan),
       [Event.getPrecertificate (serialToString 7), Event.log .info msgCheckFmt])
    ∧ parseDERMode envFound hourNs [10] 42 =
      (.error msgPreAddFail, [Event.getCertificate (serialToString 5)]) := by
  constructor
  · exact C8_already_modes.1 envFound hourNs linePrecert testPrecert ['0', 'b'] [11]
      (by decide) (by decide) (by decide) (by decide) rfl rfl
  · exact C8_already_modes.2 envFound hourNs [10] 42 testCert rfl rfl

/- ## Claim C1 (corrected) -/

/-- Counterexample to claim C1 as stated: with `NotBefore` at
2020-01-01T00:00:00Z and a one hour backdate offset, the pipeline passes
issuance time 2020-01-01T01:00:00Z (1577840400000000000 ns) to both
inserts, which differs from the claimed 2019-12-31T23:00:00Z
(1577833200000000000 ns), in the structured representation and in the
nanosecond-integer representation alike. -/
theorem C1_counterexample :
    (storeParsedLogLine envNotFound hourNs lineCert).2 =
      [Event.getCertificate (serialToString 5), Event.generateOCSP [10],
       Event.addCertificate [10] 42 [1] ⟨1577840400000000000⟩]
    ∧ (storeParsedLogLine envNotFound hourNs linePrecert).2 =
      [Event.getPrecertificate (serialToString 7), Event.generateOCSP [11],
       Event.addPrecertificate ⟨[11], 42, [1], 1577840400000000000⟩]
    ∧ (⟨1577840400000000000⟩ : GoTime) ≠ ⟨1577833200000000000⟩
    ∧ (1577840400000000000 : Int) ≠ 1577833200000000000 := by
  refine ⟨by decide, by decide, by decide, by decide⟩

/-- Claim C1 (amended): for `NotBefore` 2020-01-01T00:00:00Z under a one
hour backdate offset the computed issuance time is `NotBefore` plus the
offset, 2020-01-01T01:00:00Z exactly, as the structured timestamp of the
certificate insert and as the nanosecond integer of the precertificate
insert. -/
theorem C1_issuance :
    (storeParsedLogLine envNotFound hourNs lineCert).2 =
      [Event.getCertificate (serialToString 5), Event.generateOCSP [10],
       Event.addCertificate [10] 42 [1] (nbJan2020.add hourNs)]
    ∧ (storeParsedLogLine envNotFound hourNs linePrecert).2 =
      [Event.getPrecertificate (serialToString 7), Event.generateOCSP [11],
       Event.addPrecertificate ⟨[11], 42, [1], (nbJan2020.add hourNs).unixNano⟩]
    ∧ nbJan2020.add hourNs = ⟨1577840400000000000⟩
    ∧ (nbJan2020.add hourNs).unixNano = 1577840400000000000 := by
  refine ⟨by decide, by decide, by decide, by decide⟩

/- ## Claim C2 (corrected) -/

/-- Counterexample to claim C2 as stated: a labelled, marked line whose
registration-id pattern fails does receive the audit diagnostic and is
abandoned, but only after the existence lookup was already made, so the
trace does contain a remote call. -/
theorem C2_counterexample :
    hasOrphanLabel lineNoReg = true
    ∧ containsSubstr lineNoReg markerCertEq = true
    ∧ findRegMatch lineNoReg.toList = none
    ∧ storeParsedLogLine envNotFound hourNs lineNoReg =
        ((true, false, .certOrphan),
         [Event.getCertificate (serialToString 5), Event.log .auditErr msgNoRegID])
    ∧ (storeParsedLogLine envNotFound hourNs lineNoReg).2.any Event.isLookup = true
    ∧ (storeParsedLogLine envNotFound hourNs lineNoReg).2.any Event.isRemote = true := by
  refine ⟨by decide, by decide, by decide, by decide, by decide, by decide⟩

/-- Claim C2 (amended): for every labelled, marked line that passes DER
extraction, decoding, parsing and the existence check but whose
registration-id pattern fails to extract a group, the pipeline emits an
audit-level diagnostic and abandons the candidate with no OCSP request
and no insert; the existence lookup has already been performed by then. -/
theorem C2_regid_failure (env : Env) (bd : Int) (line : String) (c : X509Cert)
    (ds : List Char) (der : List Nat)
    (hL : hasOrphanLabel line = true)
    (hM : containsSubstr line markerCertEq = true)
    (hD : findDerMatch line.toList = some ds)
    (hX : hexDecode ds = some der)
    (hP : env.parseCert der = Except.ok c)
    (hF : lookupFor env (orphanTypeForCert (some c)) (serialToString c.serialNumber) =
            .notFound)
    (hR : findRegMatch line.toList = none) :
    storeParsedLogLine env bd line =
      ((true, false, orphanTypeForCert (some c)),
       lookupEvents (orphanTypeForCert (some c)) (serialToString c.serialNumber)
         ++ [Event.log .auditErr msgNoRegID])
    ∧ (storeParsedLogLine env bd line).2.all
        (fun e => !(e.isOCSP || e.isInsert)) = true
    ∧ (storeParsedLogLine env bd line).2.any Event.isLookup = true := by
  have h : storeParsedLogLine env bd line =
      ((true, false, orphanTypeForCert (some c)),
       lookupEvents (orphanTypeForCert (some c)) (serialToString c.serialNumber)
         ++ [Event.log .auditErr msgNoRegID]) := by
    unfold storeParsedLogLine checkDER
    rw [hL, hM]
    simp only [Bool.not_true, Bool.false_eq_true, if_false, hD, hX, hP, hF, hR]
  refine ⟨h, ?_, ?_⟩
  · rw [h]
    cases hTyp : orphanTypeForCert (some c) <;> rfl
  · rw [h]
    cases hTyp : orphanTypeForCert (some c)
    · exact absurd hTyp (orphanTypeForCert_some_ne_unknown c)
    · rfl
    · rfl

/-- Witness for C2 (amended) at the concrete no-regID line. -/
theorem C2_witness :
    storeParsedLogLine envNotFound hourNs lineNoReg =
      ((true, false, .certOrphan),
       [Event.getCertificate (serialToString 5), Event.log .auditErr msgNoRegID])
    ∧ (storeParsedLogLine envNotFound hourNs lineNoReg).2.all
        (fun e => !(e.isOCSP || e.isInsert)) = true := by
  have h := C2_regid_failure envNotFound hourNs lineNoReg testCert ['0', 'a'] [10]
    (by decide) (by decide) (by decide) (by decide) rfl rfl (by decide)
  exact ⟨h.1, h.2.1⟩

/- ## Claim C3 (corrected) -/

/-- Counterexample to claim C3 as stated: an insert failing with a
storage uniqueness-constraint violation is logged at audit-error level
and no informational log is emitted, contradicting the claimed
informational (non-audit) logging. -/
theorem C3_counterexample :
    storeParsedLogLine envDupInsert hourNs lineCert =
      ((true, false, .certOrphan),
       [Event.getCertificate (serialToString 5), Event.generateOCSP [10],
        Event.addCertificate [10] 42 [1] ⟨1577840400000000000⟩,
        Event.log .auditErr msgStoreFail])
    ∧ (storeParsedLogLine envDupInsert hourNs lineCert).2.any Event.isInfoLog = false
    ∧ Event.log .auditErr msgStoreFail ∈ (storeParsedLogLine envDupInsert hourNs lineCert).2 := by
  refine ⟨by decide, by decide, by decide⟩

/-- Claim C3 (amended): a candidate whose insert fails with a storage
uniqueness-constraint violation is non-fatal for the batch and resolves
with `found=true, stored=false`, but the failure is logged at audit-error
level like any other insert failure, not informationally: the code does
not distinguish duplicate-key insert errors. -/
theorem C3_duplicate_insert :
    (∀ (env : Env) (bd : Int) (line : String) (c : X509Cert) (ds rs : List Char)
        (der resp : List Nat) (regID : Int),
      hasOrphanLabel line = true →
      containsSubstr line markerCertEq = true →
      findDerMatch line.toList = some ds →
      hexDecode ds = some der →
      env.parseCert der = Except.ok c →
      orphanTypeForCert (some c) = .certOrphan →
      env.getCertificate (serialToString c.serialNumber) = .notFound →
      findRegMatch line.toList = some rs →
      parseInt64 rs = some regID →
      env.generateOCSP der = .ok resp →
      env.addCertificate der regID resp (c.notBefore.add bd) = some .duplicate →
      storeParsedLogLine env bd line =
        ((true, false, .certOrphan),
         [Event.getCertificate (serialToString c.serialNumber), Event.generateOCSP der,
          Event.addCertificate der regID resp (c.notBefore.add bd),
          Event.log .auditErr msgStoreFail])
        ∧ (storeParsedLogLine env bd line).2.any Event.isInfoLog = false)
    ∧ (∀ (env : Env) (bd : Int) (line : String) (c : X509Cert) (ds rs : List Char)
        (der resp : List Nat) (regID : Int),
      hasOrphanLabel line = true →
      containsSubstr line markerCertEq = true →
      findDerMatch line.toList = some ds →
      hexDecode ds = some der →
      env.parseCert der = Except.ok c →
      orphanTypeForCert (some c) = .precertOrphan →
      env.getPrecertificate (serialToString c.serialNumber) = .notFound →
      findRegMatch line.toList = some rs →
      parseInt64 rs = some regID →
      env.generateOCSP der = .ok resp →
      env.addPrecertificate ⟨der, regID, resp, (c.notBefore.add bd).unixNano⟩ =
        some .duplicate →
      storeParsedLogLine env bd line =
        ((true, false, .precertOrphan),
         [Event.getPrecertificate (serialToString c.serialNumber), Event.generateOCSP der,
          Event.addPrecertificate ⟨der, regID, resp, (c.notBefore.add bd).unixNano⟩,
          Event.log .auditErr msgStoreFail])
        ∧ (storeParsedLogLine env bd line).2.any Event.isInfoLog = false) := by
  constructor
  · intro env bd line c ds rs der resp regID hL hM hD hX hP hTyp hF hR hRI hO hIns
    have hFL : lookupFor env OrphanType.certOrphan (serialToString c.serialNumber) =
        LookupResult.notFound := hF
    have h : storeParsedLogLine env bd line =
        ((true, false, .certOrphan),
         [Event.getCertificate (serialToString c.serialNumber), Event.generateOCSP der,
          Event.addCertificate der regID resp (c.notBefore.add bd),
          Event.log .auditErr msgStoreFail]) := by
      unfold storeParsedLogLine checkDER
      rw [hL, hM]
      simp only [Bool.not_true, Bool.false_eq_true, if_false, hD, hX, hP, hFL, hR, hRI,
        hO, hTyp, hIns, lookupEvents]
      rfl
    refine ⟨h, ?_⟩
    rw [h]
    rfl
  · intro env bd line c ds rs der resp regID hL hM hD hX hP hTyp hF hR hRI hO hIns
    have hFL : lookupFor env OrphanType.precertOrphan (serialToString c.serialNumber) =
        LookupResult.notFound := hF
    have h : storeParsedLogLine env bd line =
        ((true, false, .precertOrphan),
         [Event.getPrecertificate (serialToString c.serialNumber), Event.generateOCSP der,
          Event.addPrecertificate ⟨der, regID, resp, (c.notBefore.add bd).unixNano⟩,
          Event.log .auditErr msgStoreFail]) := by
      unfold storeParsedLogLine checkDER
      rw [hL, hM]
      simp only [Bool.not_true, Bool.false_eq_true, if_false, hD, hX, hP, hFL, hR, hRI,
        hO, hTyp, hIns, lookupEvents]
      rfl
    refine ⟨h, ?_⟩
    rw [h]
    rfl

/-- Witness for C3 (amended) at the duplicate-insert environment. -/
theorem C3_witness :
    storeParsedLogLine envDupInsert hourNs linePrecert =
      ((true, false, .precertOrphan),
       [Event.getPrecertificate (serialToString 7), Event.generateOCSP [11],
        Event.addPrecertificate ⟨[11], 42, [1], 1577840400000000000⟩,
        Event.log .auditErr msgStoreFail])
    ∧ (storeParsedLogLine envDupInsert hourNs linePrecert).2.any Event.isInfoLog = false := by
  exact C3_duplicate_insert.2 envDupInsert hourNs linePrecert testPrecert
    ['0', 'b'] ['4', '2'] [11] [1] 42
    (by decide) (by decide) (by decide) (by decide) rfl (by decide) rfl
    (by decide) (by decide) rfl rfl

/- ## Claim C5 -/

/-- Claim C5: a valid precertificate DER with a well-formed registration
id, a not-found precertificate lookup and a responsive OCSP generator
leads to exactly one precertificate insert, whose `issued` field is the
`UnixNano` conversion of `NotBefore` plus the backdate offset, performed
at the insert boundary. -/
theorem C5_precert_insert (env : Env) (bd : Int) (line : String) (c : X509Cert)
    (ds rs : List Char) (der resp : List Nat) (regID : Int)
    (hL : hasOrphanLabel line = true)
    (hM : containsSubstr line markerCertEq = true)
    (hD : findDerMatch line.toList = some ds)
    (hX : hexDecode ds = some der)
    (hP : env.parseCert der = Except.ok c)
    (hTyp : orphanTypeForCert (some c) = .precertOrphan)
    (hF : env.getPrecertificate (serialToString c.serialNumber) = .notFound)
    (hR : findRegMatch line.toList = some rs)
    (hRI : parseInt64 rs = some regID)
    (hO : env.generateOCSP der = .ok resp) :
    ((storeParsedLogLine env bd line).2.countP Event.isPrecertInsert = 1)
    ∧ Event.addPrecertificate ⟨der, regID, resp, (c.notBefore.add bd).unixNano⟩
        ∈ (storeParsedLogLine env bd line).2
    ∧ (c.notBefore.add bd).unixNano = c.notBefore.unixNano + bd
    ∧ ((storeParsedLogLine env bd line).2.countP Event.isInsert = 1) := by
  have hFL : lookupFor env OrphanType.precertOrphan (serialToString c.serialNumber) =
      LookupResult.notFound := hF
  unfold storeParsedLogLine checkDER
  rw [hL, hM]
  simp only [Bool.not_true, Bool.false_eq_true, if_false, hD, hX, hP, hFL, hR, hRI,
    hO, hTyp, lookupEvents]
  cases hIns : env.addPrecertificate ⟨der, regID, resp, (c.notBefore.add bd).unixNano⟩ <;>
    exact ⟨rfl, by simp, rfl, rfl⟩

/-- Witness for C5 at the concrete precertificate line. -/
theorem C5_witness :
    ((storeParsedLogLine envNotFound hourNs linePrecert).2.countP Event.isPrecertInsert = 1)
    ∧ Event.addPrecertificate ⟨[11], 42, [1], (nbJan2020.add hourNs).unixNano⟩
        ∈ (storeParsedLogLine envNotFound hourNs linePrecert).2
    ∧ (nbJan2020.add hourNs).unixNano = nbJan2020.unixNano + hourNs
    ∧ ((storeParsedLogLine envNotFound hourNs linePrecert).2.countP Event.isInsert = 1) := by
  exact C5_precert_insert envNotFound hourNs linePrecert testPrecert
    ['0', 'b'] ['4', '2'] [11] [1] 42
    (by decide) (by decide) (by decide) (by decide) rfl (by decide) rfl
    (by decide) (by decide) rfl

/- ## Claim C7 -/

/-- Claim C7: classification of a successfully parsed certificate yields
Precertificate exactly when some extension OID equals the CT poison OID
1.3.6.1.4.1.11129.2.4.3 and Certificate otherwise; the Unknown type is
returned exactly for a nil (absent) certificate, never for a parsed one. -/
theorem C7_classification :
    (∀ c : X509Cert,
      orphanTypeForCert (some c) = .precertOrphan ↔
        ∃ ext ∈ c.extensions, ext.id = [1, 3, 6, 1, 4, 1, 11129, 2, 4, 3])
    ∧ (∀ c : X509Cert,
      orphanTypeForCert (some c) = .certOrphan ↔
        ¬∃ ext ∈ c.extensions, ext.id = [1, 3, 6, 1, 4, 1, 11129, 2, 4, 3])
    ∧ (∀ co : Option X509Cert, orphanTypeForCert co = .unknownOrphan ↔ co = none) := by
  have key : ∀ c : X509Cert,
      c.extensions.any (fun ext => ext.id = poisonOID) = true ↔
        ∃ ext ∈ c.extensions, ext.id = [1, 3, 6, 1, 4, 1, 11129, 2, 4, 3] := by
    intro c
    simp [List.any_eq_true, poisonOID]
  refine ⟨?_, ?_, ?_⟩
  · intro c
    by_cases hx : c.extensions.any (fun ext => ext.id = poisonOID) = true
    · have hEq : orphanTypeForCert (some c) = .precertOrphan := by
        simp only [orphanTypeForCert]
        rw [if_pos hx]
      rw [hEq]
      exact iff_of_true rfl ((key c).mp hx)
    · have hEq : orphanTypeForCert (some c) = .certOrphan := by
        simp only [orphanTypeForCert]
        rw [if_neg hx]
      rw [hEq]
      exact iff_of_false (by simp) (fun hex => hx ((key c).mpr hex))
  · intro c
    by_cases hx : c.extensions.any (fun ext => ext.id = poisonOID) = true
    · have hEq : orphanTypeForCert (some c) = .precertOrphan := by
        simp only [orphanTypeForCert]
        rw [if_pos hx]
      rw [hEq]
      exact iff_of_false (by simp) (fun hne => hne ((key c).mp hx))
    · have hEq : orphanTypeForCert (some c) = .certOrphan := by
        simp only [orphanTypeForCert]
        rw [if_neg hx]
      rw [hEq]
      exact iff_of_true rfl (fun hex => hx ((key c).mpr hex))
  · intro co
    cases co with
    | none => exact iff_of_true rfl rfl
    | some c =>
      exact iff_of_false (orphanTypeForCert_some_ne_unknown c) (by simp)

/-- Witness for C7 at the concrete test certificates. -/
theorem C7_witness :
    orphanTypeForCert (some testPrecert) = .precertOrphan
    ∧ orphanTypeForCert (some testCert) = .certOrphan
    ∧ orphanTypeForCert none = .unknownOrphan := by
  refine ⟨?_, ?_, ?_⟩
  · exact (C7_classification.1 testPrecert).mpr ⟨⟨poisonOID⟩, by decide, by decide⟩
  · exact (C7_classification.2.1 testCert).mpr (by decide)
  · exact (C7_classification.2.2 none).mpr rfl

/- ## Claim C9 -/

/-- A batch-loop iteration whose line resolves with the unknown orphan
type leaves all four counters unchanged. -/
theorem batchStep_unknown (env : Env) (bd : Int) (acc : Counters × List Event)
    (line : String)
    (h : (storeParsedLogLine env bd line).1.2.2 = .unknownOrphan) :
    (batchStep env bd acc line).1 = acc.1 := by
  unfold batchStep
  rcases hS : storeParsedLogLine env bd line with ⟨⟨found, added, typ⟩, evs⟩
  rw [hS] at h
  by_cases hE : line = ""
  · rw [if_pos hE]
  · rw [if_neg hE]
    cases typ
    · rfl
    · exact absurd h (by simp)
    · exact absurd h (by simp)

/-- A batch-loop iteration changes the counters only for a matched line of
a determined orphan type. -/
theorem batchStep_changed (env : Env) (bd : Int) (acc : Counters × List Event)
    (line : String)
    (h : (batchStep env bd acc line).1 ≠ acc.1) :
    (storeParsedLogLine env bd line).1.1 = true
    ∧ (storeParsedLogLine env bd line).1.2.2 ≠ .unknownOrphan := by
  by_cases hE : line = ""
  · exact absurd (by unfold batchStep; rw [if_pos hE]) h
  · rcases hS : storeParsedLogLine env bd line with ⟨⟨found, added, typ⟩, evs⟩
    cases typ
    · exact absurd (batchStep_unknown env bd acc line (by rw [hS])) h
    · refine ⟨?_, by simp⟩
      cases hf : found
      · exfalso
        apply h
        unfold batchStep
        rw [if_neg hE, hS]
        simp [hf]
      · rfl
    · refine ⟨?_, by simp⟩
      cases hf : found
      · exfalso
        apply h
        unfold batchStep
        rw [if_neg hE, hS]
        simp [hf]
      · rfl

/-- A batch-loop iteration that changes an added counter also increments
the corresponding found counter. -/
theorem batchStep_added (env : Env) (bd : Int) (acc : Counters × List Event)
    (line : String) :
    ((batchStep env bd acc line).1.certAdded ≠ acc.1.certAdded →
      (batchStep env bd acc line).1.certFound = acc.1.certFound + 1)
    ∧ ((batchStep env bd acc line).1.precertAdded ≠ acc.1.precertAdded →
      (batchStep env bd acc line).1.precertFound = acc.1.precertFound + 1) := by
  unfold batchStep
  by_cases hE : line = ""
  · rw [if_pos hE]
    exact ⟨fun h => absurd rfl h, fun h => absurd rfl h⟩
  · rw [if_neg hE]
    rcases hS : storeParsedLogLine env bd line with ⟨⟨found, added, typ⟩, evs⟩
    cases typ <;> cases found <;> cases added <;> simp

/-- One batch-loop iteration preserves the added-does-not-exceed-found
invariant of both counter pairs. -/
theorem batchStep_le (env : Env) (bd : Int) (acc : Counters × List Event)
    (line : String)
    (h1 : acc.1.certAdded ≤ acc.1.certFound)
    (h2 : acc.1.precertAdded ≤ acc.1.precertFound) :
    (batchStep env bd acc line).1.certAdded ≤ (batchStep env bd acc line).1.certFound
    ∧ (batchStep env bd acc line).1.precertAdded ≤
        (batchStep env bd acc line).1.precertFound := by
  unfold batchStep
  by_cases hE : line = ""
  · rw [if_pos hE]
    exact ⟨h1, h2⟩
  · rw [if_neg hE]
    rcases hS : storeParsedLogLine env bd line with ⟨⟨found, added, typ⟩, evs⟩
    cases typ <;> cases found <;> cases added <;> simp <;> omega

/-- The added-does-not-exceed-found invariant is preserved by the whole
batch fold from any state satisfying it. -/
theorem runBatch_le_aux (env : Env) (bd : Int) :
    ∀ (lines : List String) (acc : Counters × List Event),
      acc.1.certAdded ≤ acc.1.certFound →
      acc.1.precertAdded ≤ acc.1.precertFound →
      ((lines.foldl (batchStep env bd) acc).1.certAdded ≤
        (lines.foldl (batchStep env bd) acc).1.certFound
       ∧ (lines.foldl (batchStep env bd) acc).1.precertAdded ≤
        (lines.foldl (batchStep env bd) acc).1.precertFound)
  | [], _, h1, h2 => ⟨h1, h2⟩
  | line :: rest, acc, h1, h2 => by
    have hs := batchStep_le env bd acc line h1 h2
    simpa [List.foldl_cons] using
      runBatch_le_aux env bd rest (batchStep env bd acc line) hs.1 hs.2

/-- Claim C9: a matched line of unknown orphan type increments none of the
four counters; any counter change requires a matched line with a
determined type; an added counter changes only when its found counter is
incremented; and over any batch run from zero, added never exceeds found
for either type. -/
theorem C9_counters :
    (∀ (env : Env) (bd : Int) (acc : Counters × List Event) (line : String),
      (storeParsedLogLine env bd line).1.1 = true →
      (storeParsedLogLine env bd line).1.2.2 = .unknownOrphan →
      (batchStep env bd acc line).1 = acc.1)
    ∧ (∀ (env : Env) (bd : Int) (acc : Counters × List Event) (line : String),
      (batchStep env bd acc line).1 ≠ acc.1 →
      (storeParsedLogLine env bd line).1.1 = true
      ∧ (storeParsedLogLine env bd line).1.2.2 ≠ .unknownOrphan)
    ∧ (∀ (env : Env) (bd : Int) (acc : Counters × List Event) (line : String),
      ((batchStep env bd acc line).1.certAdded ≠ acc.1.certAdded →
        (batchStep env bd acc line).1.certFound = acc.1.certFound + 1)
      ∧ ((batchStep env bd acc line).1.precertAdded ≠ acc.1.precertAdded →
        (batchStep env bd acc line).1.precertFound = acc.1.precertFound + 1))
    ∧ (∀ (env : Env) (bd : Int) (lines : List String),
      (runBatch env bd lines).1.certAdded ≤ (runBatch env bd lines).1.certFound
      ∧ (runBatch env bd lines).1.precertAdded ≤
          (runBatch env bd lines).1.precertFound) := by
  refine ⟨?_, ?_, ?_, ?_⟩
  · intro env bd acc line _ h2
    exact batchStep_unknown env bd acc line h2
  · intro env bd acc line h
    exact batchStep_changed env bd acc line h
  · intro env bd acc line
    exact batchStep_added env bd acc line
  · intro env bd lines
    exact runBatch_le_aux env bd lines (Counters.zero, []) le_rfl le_rfl

/-- A labelled, marked line whose bracket payload fails the lowercase-hex
pattern: matched but of unknown type. -/
def lineUnknownType : String := "orphaning certificate cert=[zz]"

/-- Witness for C9 at concrete lines and the concrete environment. -/
theorem C9_witness :
    (batchStep envNotFound hourNs (Counters.zero, []) lineUnknownType).1 = Counters.zero
    ∧ ((storeParsedLogLine envNotFound hourNs lineCert).1.1 = true
       ∧ (storeParsedLogLine envNotFound hourNs lineCert).1.2.2 ≠ .unknownOrphan)
    ∧ (batchStep envNotFound hourNs (Counters.zero, []) lineCert).1.certFound =
        Counters.zero.certFound + 1
    ∧ ((runBatch envNotFound hourNs [lineCert, linePrecert, lineNoReg]).1.certAdded ≤
        (runBatch envNotFound hourNs [lineCert, linePrecert, lineNoReg]).1.certFound
      ∧ (runBatch envNotFound hourNs [lineCert, linePrecert, lineNoReg]).1.precertAdded ≤
        (runBatch envNotFound hourNs [lineCert, linePrecert, lineNoReg]).1.precertFound) := by
  refine ⟨C9_counters.1 envNotFound hourNs (Counters.zero, []) lineUnknownType
      (by decide) (by decide),
    C9_counters.2.1 envNotFound hourNs (Counters.zero, []) lineCert (by decide),
    (C9_counters.2.2.1 envNotFound hourNs (Counters.zero, []) lineCert).1 (by decide),
    C9_counters.2.2.2 envNotFound hourNs [lineCert, linePrecert, lineNoReg]⟩

/- ## Claim C10 -/

/-- The run captured by the bracket scan satisfies its character class. -/
theorem takeWhile_all {α : Type} (pred : α → Bool) :
    ∀ l : List α, (l.takeWhile pred).all pred = true := by
  intro l
  induction l with
  | nil => rfl
  | cons c rest ih =>
    rw [List.takeWhile_cons]
    by_cases h : pred c = true
    · simp [h, ih]
    · simp [h]

/-- Any group captured by the bracket scan consists only of characters of
its class. -/
theorem scanBracket_all (marker : List Char) (pred : Char → Bool) :
    ∀ (l r : List Char), scanBracket marker pred l = some r → r.all pred = true := by
  intro l
  induction l with
  | nil =>
    intro r h
    exact Option.noConfusion h
  | cons c rest ih =>
    intro r h
    simp only [scanBracket] at h
    split at h
    · split at h
      · injection h with h
        subst h
        exact takeWhile_all pred _
      · exact ih r h
    · exact ih r h

/-- Claim C10: the DER extraction captures only lowercase hexadecimal
digits (so a payload containing an uppercase digit, all of which fail the
class, is never decoded), and a labelled, marked line on which the
extraction fails is matched-but-invalid: `found=true, stored=false`, one
audit diagnostic, and no remote call of any kind. -/
theorem C10_lowercase_hex :
    (∀ (l r : List Char), findDerMatch l = some r → r.all isLowerHexDigit = true)
    ∧ (∀ c ∈ ['A', 'B', 'C', 'D', 'E', 'F'], isLowerHexDigit c = false)
    ∧ (∀ (env : Env) (bd : Int) (line : String),
        hasOrphanLabel line = true →
        containsSubstr line markerCertEq = true →
        findDerMatch line.toList = none →
        storeParsedLogLine env bd line =
          ((true, false, .unknownOrphan), [Event.log .auditErr msgNoDerRegex])) := by
  refine ⟨?_, by decide, ?_⟩
  · intro l r h
    exact scanBracket_all derMarker isLowerHexDigit l r h
  · intro env bd line hL hM hD
    unfold storeParsedLogLine
    rw [hL, hM]
    simp only [Bool.not_true, Bool.false_eq_true, if_false, hD]

/-- Witness for C10 at the concrete uppercase-payload line. -/
theorem C10_witness :
    (['0', 'a'].all isLowerHexDigit = true)
    ∧ isLowerHexDigit 'D' = false
    ∧ storeParsedLogLine envNotFound hourNs lineUpperHex =
        ((true, false, .unknownOrphan), [Event.log .auditErr msgNoDerRegex]) := by
  refine ⟨C10_lowercase_hex.1 lineCert.toList ['0', 'a'] (by decide),
    C10_lowercase_hex.2.1 'D' (by decide),
    C10_lowercase_hex.2.2 envNotFound hourNs lineUpperHex (by decide) (by decide)
      (by decide)⟩
